import Mathlib

/-!
Shallow embedding of the streaming transcription server in src/transcribe.py
(Friday AI).  Python strings are modeled as List Char, Python floats
(timestamps, seconds, signal statistics) as rationals, and wall-clock reads
of time.time() as explicit rational parameters threaded through each
operation.  External collaborators (the Whisper ASR engine, the base64
decoder, the IEEE float32 interpretation of raw bytes, the audio analyzer
and the legacy-path transcriber) are passed in as function parameters or
explicit data, exactly at the boundary where the source calls out to them.
-/

/-! ### Python string helpers -/

/-- Python str.strip with no argument removes whitespace from both ends;
this is the model used for every .strip() call in the source. -/
def stripBoth (s : List Char) : List Char :=
  ((s.dropWhile Char.isWhitespace).reverse.dropWhile Char.isWhitespace).reverse

/-- Fuel-driven worker for replaceAll; the fuel starts at the length of the
string, which suffices because every step consumes at least one character. -/
def replaceAllAux (pat : List Char) : ℕ → List Char → List Char
  | 0, s => s
  | _ + 1, [] => []
  | n + 1, c :: rest =>
    if pat ≠ [] ∧ pat.isPrefixOf (c :: rest) then
      replaceAllAux pat n ((c :: rest).drop pat.length)
    else
      c :: replaceAllAux pat n rest

/-- Python str.replace(pat, "") : delete every non-overlapping occurrence of
pat, scanning left to right. -/
def replaceAll (pat s : List Char) : List Char :=
  replaceAllAux pat s.length s

/-- Whether a string holds at least one non-whitespace character. -/
def hasNonWs (s : List Char) : Bool :=
  s.any (fun c => !c.isWhitespace)

/-- Python s.endswith(c) for a single character c. -/
def lastCharIs (s : List Char) (c : Char) : Bool :=
  match s.getLast? with
  | some d => d == c
  | none => false

/-! ### Configuration constants (lines 29-33 of src/transcribe.py) -/

def CHUNK_DURATION_MS : ℕ := 30000
def WHISPER_SAMPLE_RATE : ℕ := 16000
def MIN_CHUNK_DURATION_MS : ℕ := 2000
def SENTENCE_TIMEOUT_MS : ℕ := 1000
def BUFFER_OVERLAP_MS : ℕ := 1000

/-! ### Stream types and transcript segments -/

/-- The two audio channels handled by the server. -/
inductive StreamType where
  | microphone
  | system
deriving DecidableEq

/-- TranscriptSegment (lines 35-40): text plus timing, as produced by the
ASR engine for one chunk. -/
structure TranscriptSegment where
  text : List Char
  start_time : ℚ
  end_time : ℚ
deriving DecidableEq

/-- A transcript update emitted by the accumulator (the dict built at lines
87-92 and 107-112).  The source formats the two times into one string
field named timestamp; the model keeps the pair of rationals.  The source
dict stores the stream type twice, under source and stream_type, and so
does the model. -/
structure TranscriptUpdate where
  text : List Char
  ts_start : ℚ
  ts_end : ℚ
  source : StreamType
  stream_type : StreamType
deriving DecidableEq

/-! ### TranscriptAccumulator (lines 42-114) -/

/-- Accumulator state (fields set in __init__, lines 44-49).  The Python
last_segment_hash compares hash((clean_text, start, end)) values; the model
keeps the fingerprint triple itself (an injective hash), with the initial
sentinel 0 modeled as none. -/
structure TranscriptAccumulator where
  current_sentence : List Char
  sentence_start_time : ℚ
  last_update_time : ℚ
  last_segment_hash : Option (List Char × ℚ × ℚ)
  segments_buffer : List TranscriptSegment
deriving DecidableEq

/-- Fresh accumulator, as built by __init__ at wall-clock time now. -/
def TranscriptAccumulator.init (now : ℚ) : TranscriptAccumulator :=
  { current_sentence := []
    sentence_start_time := 0
    last_update_time := now
    last_segment_hash := none
    segments_buffer := [] }

/-- deque(maxlen := 50) append: push at the right, evicting from the left
once the length would exceed 50. -/
def pushBounded (l : List TranscriptSegment) (x : TranscriptSegment) :
    List TranscriptSegment :=
  let l' := l ++ [x]
  if l'.length > 50 then l'.drop (l'.length - 50) else l'

/-- The text cleanup of line 59: drop the two placeholder markers, then
strip whitespace. -/
def cleanSegmentText (t : List Char) : List Char :=
  stripBoth (replaceAll "[AUDIO OUT]".data (replaceAll "[BLANK_AUDIO]".data t))

/-- add_segment (lines 51-96).  Returns the new state and the optional
transcript update.  The wall-clock read time.time() of line 56 is the
explicit parameter now. -/
def TranscriptAccumulator.add_segment (a : TranscriptAccumulator)
    (segment : TranscriptSegment) (stream_type : StreamType) (now : ℚ) :
    TranscriptAccumulator × Option TranscriptUpdate :=
  let a1 : TranscriptAccumulator := { a with last_update_time := now }
  let clean_text := cleanSegmentText segment.text
  if clean_text = [] ∨ segment.end_time - segment.start_time < 1 then
    (a1, none)
  else
    let segment_hash := (clean_text, segment.start_time, segment.end_time)
    if a1.last_segment_hash = some segment_hash then
      (a1, none)
    else
      let a2 : TranscriptAccumulator :=
        { a1 with last_segment_hash := some segment_hash
                  segments_buffer := pushBounded a1.segments_buffer segment }
      let a3 : TranscriptAccumulator :=
        if a2.current_sentence = [] then
          { a2 with sentence_start_time := segment.start_time }
        else a2
      let withSpace :=
        if a3.current_sentence ≠ [] ∧ ¬ lastCharIs a3.current_sentence ' ' = true then
          a3.current_sentence ++ [' ']
        else a3.current_sentence
      let cs := withSpace ++ clean_text
      let a4 : TranscriptAccumulator := { a3 with current_sentence := cs }
      if lastCharIs clean_text '.' = true ∨ lastCharIs clean_text '?' = true ∨
          lastCharIs clean_text '!' = true then
        ({ a4 with current_sentence := [] },
         some { text := stripBoth cs
                ts_start := a4.sentence_start_time
                ts_end := segment.end_time
                source := stream_type
                stream_type := stream_type })
      else
        (a4, none)

/-- check_timeout (lines 98-114).  SENTENCE_TIMEOUT_MS / 1000.0 is the
rational 1. -/
def TranscriptAccumulator.check_timeout (a : TranscriptAccumulator)
    (stream_type : StreamType) (now : ℚ) :
    TranscriptAccumulator × Option TranscriptUpdate :=
  if a.current_sentence ≠ [] ∧ now - a.last_update_time > 1 then
    ({ a with current_sentence := [] },
     some { text := stripBoth a.current_sentence
            ts_start := a.sentence_start_time
            ts_end := a.sentence_start_time + 1
            source := stream_type
            stream_type := stream_type })
  else
    (a, none)

/-- States of the accumulator reachable from a fresh instance through its
two public operations. -/
inductive ReachableAcc : TranscriptAccumulator → Prop where
  | init (now : ℚ) : ReachableAcc (TranscriptAccumulator.init now)
  | add (a : TranscriptAccumulator) (seg : TranscriptSegment)
      (st : StreamType) (now : ℚ) :
      ReachableAcc a → ReachableAcc (a.add_segment seg st now).1
  | timeout (a : TranscriptAccumulator) (st : StreamType) (now : ℚ) :
      ReachableAcc a → ReachableAcc (a.check_timeout st now).1

/-- Invariant: the pending sentence is empty or holds a visible
character. -/
def AccInv (a : TranscriptAccumulator) : Prop :=
  a.current_sentence = [] ∨ hasNonWs a.current_sentence = true

/-! ### AudioStreamBuffer (lines 116-179) -/

/-- Per-stream audio buffer.  The sample values are the IEEE float32
payloads delivered by the wire; arithmetic on them never happens in the
core, so they are carried as rationals produced by the (external) float32
reinterpretation. -/
structure AudioStreamBuffer where
  stream_type : StreamType
  sample_rate : ℕ
  audio_buffer : List ℚ
  total_samples : ℕ
  last_chunk_time : ℚ
  accumulator : TranscriptAccumulator
deriving DecidableEq

/-- chunk_samples = int(sample_rate * (CHUNK_DURATION_MS / 1000.0)), exact
for whole-second durations. -/
def AudioStreamBuffer.chunk_samples (b : AudioStreamBuffer) : ℕ :=
  b.sample_rate * (CHUNK_DURATION_MS / 1000)

def AudioStreamBuffer.min_samples (b : AudioStreamBuffer) : ℕ :=
  b.sample_rate * (MIN_CHUNK_DURATION_MS / 1000)

def AudioStreamBuffer.overlap_samples (b : AudioStreamBuffer) : ℕ :=
  b.sample_rate * (BUFFER_OVERLAP_MS / 1000)

/-- Fresh buffer at wall-clock time now (__init__, lines 118-130; the
sample rate always takes its default WHISPER_SAMPLE_RATE at the only
construction site, line 194). -/
def AudioStreamBuffer.init (stream_type : StreamType) (now : ℚ) :
    AudioStreamBuffer :=
  { stream_type := stream_type
    sample_rate := WHISPER_SAMPLE_RATE
    audio_buffer := []
    total_samples := 0
    last_chunk_time := now
    accumulator := TranscriptAccumulator.init now }

/-- Group a byte list into little-endian 32-bit words; the leftover tail of
fewer than four bytes is dropped (np.frombuffer never sees it because it
raises first when the length is not a multiple of four). -/
def bytesToWords32 : List ℕ → List ℕ
  | b0 :: b1 :: b2 :: b3 :: rest =>
      ((b0 % 256) + 256 * ((b1 % 256) + 256 * ((b2 % 256) + 256 * (b3 % 256))))
        :: bytesToWords32 rest
  | _ => []

/-- add_audio_data (lines 134-142).  np.frombuffer(data, float32) raises a
ValueError when the byte length is not a multiple of four, before anything
is appended; otherwise each 4-byte word is reinterpreted as a float32.
The numeric reinterpretation is the external parameter f32 from 32-bit
word patterns to sample values. -/
def AudioStreamBuffer.add_audio_data (f32 : ℕ → ℚ) (b : AudioStreamBuffer)
    (audio_data : List ℕ) : Except String AudioStreamBuffer :=
  if audio_data.length % 4 ≠ 0 then
    .error "buffer size must be a multiple of element size"
  else
    let samples := (bytesToWords32 audio_data).map f32
    .ok { b with audio_buffer := b.audio_buffer ++ samples
                 total_samples := b.total_samples + samples.length }

/-- get_chunk_if_ready (lines 144-172).  Returns the optional extracted
chunk and the updated buffer; now is the time.time() read of line 150. -/
def AudioStreamBuffer.get_chunk_if_ready (b : AudioStreamBuffer) (now : ℚ) :
    Option (List ℚ) × AudioStreamBuffer :=
  let current_buffer_size := b.audio_buffer.length
  let time_since_last := now - b.last_chunk_time
  let should_process :=
    current_buffer_size ≥ b.chunk_samples ∨
      (current_buffer_size ≥ b.min_samples ∧
        time_since_last ≥ (CHUNK_DURATION_MS : ℚ) / 1000)
  if should_process ∧ current_buffer_size > 0 then
    let chunk_size := min current_buffer_size b.chunk_samples
    let chunk := b.audio_buffer.take chunk_size
    let overlap_size := min b.overlap_samples chunk_size
    let overlap_data := chunk.drop (chunk_size - overlap_size)
    (some chunk,
     { b with audio_buffer := overlap_data ++ b.audio_buffer.drop chunk_size
              last_chunk_time := now })
  else
    (none, b)

/-- The readiness condition of lines 151-154, as the specification states
it: enough samples for a full chunk, or at least the minimum plus the
nominal chunk duration elapsed since the previous extraction. -/
def AudioStreamBuffer.chunkReady (b : AudioStreamBuffer) (now : ℚ) : Prop :=
  b.audio_buffer.length ≥ b.chunk_samples ∨
    (b.audio_buffer.length ≥ b.min_samples ∧
      now - b.last_chunk_time ≥ (CHUNK_DURATION_MS : ℚ) / 1000)

instance (b : AudioStreamBuffer) (now : ℚ) : Decidable (b.chunkReady now) := by
  unfold AudioStreamBuffer.chunkReady
  infer_instance

/-- clear_buffer (lines 174-179). -/
def AudioStreamBuffer.clear_buffer (b : AudioStreamBuffer) : AudioStreamBuffer :=
  { b with audio_buffer := [], total_samples := 0 }

/-! ### StreamingTranscriptionServer (lines 181-225) -/

/-- Reply dictionaries returned by the registry operations, such as
success plus an optional error string or stream id. -/
structure CmdResult where
  success : Bool
  error : Option String := none
  stream_id : Option String := none
deriving DecidableEq

/-- The registry: audio_buffers is the Python dict keyed by stream id
(keys unique, modeled as an association list) and active_streams the
companion set. -/
structure StreamingTranscriptionServer where
  audio_buffers : List (String × AudioStreamBuffer)
  active_streams : List String
deriving DecidableEq

/-- Dict lookup audio_buffers[stream_id]. -/
def lookupBuffer (s : StreamingTranscriptionServer) (stream_id : String) :
    Option AudioStreamBuffer :=
  (s.audio_buffers.find? (fun p => p.1 == stream_id)).map Prod.snd

/-- Python set.add on the model of a set as a duplicate-free list. -/
def insertStr (l : List String) (x : String) : List String :=
  if x ∈ l then l else l ++ [x]

/-- start_stream (lines 189-198). -/
def StreamingTranscriptionServer.start_stream
    (s : StreamingTranscriptionServer) (stream_id : String)
    (stream_type : StreamType) (now : ℚ) :
    StreamingTranscriptionServer × CmdResult :=
  if lookupBuffer s stream_id ≠ none then
    (s, { success := false, error := some "Stream already exists" })
  else
    ({ audio_buffers :=
         s.audio_buffers ++ [(stream_id, AudioStreamBuffer.init stream_type now)]
       active_streams := insertStr s.active_streams stream_id },
     { success := true, stream_id := some stream_id })

/-- stop_stream (lines 200-217).  The third component counts the
ASR/transcription invocations performed during the call: the body reads
the residual samples into remaining_chunk and logs their count (lines
205-211, whose trailing comment says the remaining chunk is processed)
but contains no transcription call, so the count is zero on every path. -/
def StreamingTranscriptionServer.stop_stream
    (s : StreamingTranscriptionServer) (stream_id : String) :
    StreamingTranscriptionServer × CmdResult × ℕ :=
  match lookupBuffer s stream_id with
  | none => (s, { success := false, error := some "Stream not found" }, 0)
  | some _buffer =>
      ({ audio_buffers := s.audio_buffers.filter (fun p => p.1 != stream_id)
         active_streams := s.active_streams.filter (fun x => x != stream_id) },
       { success := true }, 0)

/-- Replace the buffer stored under a key. -/
def setBuffer (bufs : List (String × AudioStreamBuffer)) (stream_id : String)
    (b : AudioStreamBuffer) : List (String × AudioStreamBuffer) :=
  bufs.map (fun p => if p.1 == stream_id then (stream_id, b) else p)

/-- add_audio_chunk (lines 219-225).  An unknown id is answered with a
result dict; a ValueError raised inside add_audio_data propagates to the
caller, modeled by the Except error. -/
def StreamingTranscriptionServer.add_audio_chunk (f32 : ℕ → ℚ)
    (s : StreamingTranscriptionServer) (stream_id : String)
    (audio_data : List ℕ) :
    Except String (StreamingTranscriptionServer × CmdResult) :=
  match lookupBuffer s stream_id with
  | none => .ok (s, { success := false, error := some "Stream not found" })
  | some buf =>
    match buf.add_audio_data f32 audio_data with
    | .error e => .error e
    | .ok buf' =>
        .ok ({ s with audio_buffers := setBuffer s.audio_buffers stream_id buf' },
             { success := true })

/-! ### ASR engine interface and the streaming processing path
(lines 350-452) -/

/-- The voice-activity-detection configuration passed to
model.transcribe.  For system audio the source passes vad_filter := False
and no vad_parameters dict (the three numeric fields are zeroed in the
model); for microphone audio it passes the lenient settings of lines
424-428. -/
structure VadConfig where
  vad_filter : Bool
  min_silence_duration_ms : ℕ
  speech_pad_ms : ℕ
  max_speech_duration_s : ℕ
deriving DecidableEq

def vadConfigFor (stream_type : StreamType) : VadConfig :=
  match stream_type with
  | .system =>
      { vad_filter := false
        min_silence_duration_ms := 0
        speech_pad_ms := 0
        max_speech_duration_s := 0 }
  | .microphone =>
      { vad_filter := true
        min_silence_duration_ms := 1000
        speech_pad_ms := 400
        max_speech_duration_s := 30 }

/-- A raw segment as yielded by the ASR engine; the field stop stands for
the attribute named end in the source, a Lean keyword. -/
structure RawSegment where
  text : List Char
  start : ℚ
  stop : ℚ
deriving DecidableEq

/-- The info object returned beside the segments by model.transcribe. -/
structure WhisperInfo where
  language : List Char
  language_probability : ℚ
  duration : ℚ
deriving DecidableEq

/-- The ASR engine collaborator: given the chunk samples and the chosen
VAD configuration, produce the segment list (the WAV encoding and the
temp-file plumbing of lines 388-404 carry the same samples to the
engine). -/
abbrev AsrEngine := List ℚ → VadConfig → List RawSegment

/-- transcribe_audio_chunk (lines 385-452): picks the stream-type-specific
VAD configuration, invokes the engine exactly once, and keeps the segments
whose stripped text is non-empty.  The second component counts the engine
invocations made by the call. -/
def transcribe_audio_chunk (engine : AsrEngine) (audio_chunk : List ℚ)
    (stream_type : StreamType) : List TranscriptSegment × ℕ :=
  let segments := engine audio_chunk (vadConfigFor stream_type)
  (segments.filterMap (fun s =>
      if stripBoth s.text ≠ [] then
        some { text := stripBoth s.text
               start_time := s.start
               end_time := s.stop }
      else none),
   1)

/-- Drive a list of segments through the accumulator, collecting the
emitted updates, as the for-loop of lines 365-369 does. -/
def feedSegments (acc : TranscriptAccumulator) (stream_type : StreamType)
    (now : ℚ) : List TranscriptSegment → TranscriptAccumulator × List TranscriptUpdate
  | [] => (acc, [])
  | s :: rest =>
    let r := acc.add_segment s stream_type now
    let r2 := feedSegments r.1 stream_type now rest
    (r2.1, r.2.toList ++ r2.2)

/-- One iteration of the process_streams body (lines 354-374) for a single
stream buffer: attempt a chunk extraction; when a chunk is returned, run it
through transcribe_audio_chunk, feed the segments to the accumulator, and
check the timeout.  The result carries the updated buffer, the updates to
broadcast, and the number of ASR engine invocations made. -/
def process_stream_step (engine : AsrEngine) (b : AudioStreamBuffer)
    (now : ℚ) : AudioStreamBuffer × List TranscriptUpdate × ℕ :=
  match b.get_chunk_if_ready now with
  | (none, b') => (b', [], 0)
  | (some chunk, b') =>
    let tr := transcribe_audio_chunk engine chunk b.stream_type
    let fed := feedSegments b'.accumulator b.stream_type now tr.1
    let timeo := fed.1.check_timeout b.stream_type now
    ({ b' with accumulator := timeo.1 }, fed.2 ++ timeo.2.toList, tr.2)

/-! ### The legacy file path and its quality gate
(analyze_audio_content, lines 571-652, and transcribe_chunk,
lines 654-916) -/

/-- The analysis dict produced by the audio codec/analyzer collaborator
(lines 573-583); the error field carries an analysis failure message. -/
structure AudioAnalysis where
  has_audio : Bool
  duration : ℚ
  sample_rate : ℕ
  channels : ℕ
  max_amplitude : ℚ
  rms_level : ℚ
  silence_percentage : ℚ
  audio_format : List Char
  error : Option String
deriving DecidableEq

/-- The quality-gate rejection condition applied by transcribe_chunk at
lines 728 and 753: duration below 50 ms, near-total silence, or the
amplitude and RMS floors.  The thresholds 0.05, 99.5, 0.5 and 0.05 are the
rationals below. -/
def qualityGateRejects (an : AudioAnalysis) : Prop :=
  an.duration < 1 / 20 ∨ an.silence_percentage > 199 / 2 ∨
    an.max_amplitude < 1 / 2 ∨ an.rms_level < 1 / 20

instance (an : AudioAnalysis) : Decidable (qualityGateRejects an) := by
  unfold qualityGateRejects
  infer_instance

/-- The reply dict built by transcribe_chunk. -/
structure TranscribeResult where
  rtype : List Char
  text : List Char
  stream_type : StreamType
  language : List Char
  language_probability : ℚ
  duration : ℚ
  chunk_id : ℕ
deriving DecidableEq

/-- The empty transcript reply returned on each quality-gate rejection
(lines 716-724, 736-744, 761-769). -/
def emptyTranscript (stream_type : StreamType) (duration : ℚ)
    (chunk_id : ℕ) : TranscribeResult :=
  { rtype := "transcript".data
    text := []
    stream_type := stream_type
    language := "en".data
    language_probability := 1
    duration := duration
    chunk_id := chunk_id }

/-- The decision core of transcribe_chunk after the audio analysis (lines
705-864): an analysis error, a too-short duration, or a too-quiet signal
short-circuits to an empty transcript without invoking the ASR engine;
otherwise the engine runs once and its segment texts are joined with
spaces and stripped.  segments and info stand for the engine output of the
single model.transcribe call; the second component counts engine
invocations. -/
def transcribe_chunk_core (an : AudioAnalysis) (segments : List RawSegment)
    (info : WhisperInfo) (stream_type : StreamType) (chunk_id : ℕ) :
    TranscribeResult × ℕ :=
  if an.error.isSome then
    (emptyTranscript stream_type 0 chunk_id, 0)
  else if an.duration < 1 / 20 then
    (emptyTranscript stream_type an.duration chunk_id, 0)
  else if an.silence_percentage > 199 / 2 ∨ an.max_amplitude < 1 / 2 ∨
      an.rms_level < 1 / 20 then
    (emptyTranscript stream_type an.duration chunk_id, 0)
  else
    let transcription := segments.foldl (fun acc s => acc ++ s.text ++ [' ']) []
    ({ rtype := "transcript".data
       text := stripBoth transcription
       stream_type := stream_type
       language := info.language
       language_probability := info.language_probability
       duration := info.duration
       chunk_id := chunk_id },
     1)

/-! ### ConnectionHandler (handle_client, lines 977-1124) -/

/-- Outcome of the base64 decode of an audio_data payload: the collaborator
either yields the decoded bytes or raises.  A present-but-empty audio_data
string is falsy in Python and skips the branch exactly as an absent key
does, so the Option wrapper around this type is none in both cases. -/
inductive B64Outcome where
  | ok (bytes : List ℕ)
  | failed (msg : String)
deriving DecidableEq

/-- A keyword record of a check_alerts request. -/
structure AlertKeyword where
  keyword : List Char
  threshold : ℚ
  enabled : Bool
deriving DecidableEq

/-- The closed set of command kinds dispatched on the type field of a
parsed JSON record (lines 995-1084); a JSON record whose type matches no
branch is the unknown constructor. -/
inductive Request where
  | check_alerts (transcript : List Char) (keywords : List AlertKeyword)
  | start_stream (stream_id : Option String) (stream_type : StreamType)
  | stop_stream (stream_id : Option String)
  | stream_chunk (stream_id : Option String) (audio_data : Option B64Outcome)
  | dual_stream_chunk (audio_path : String) (stream_type : StreamType)
  | unknown (tag : String)
deriving DecidableEq

/-- One record received on the socket: either parsed JSON, or raw data that
failed JSON parsing (handled by the legacy path of lines 1086-1110). -/
inductive ClientRecord where
  | json (req : Request)
  | raw (data : String)
deriving DecidableEq

/-- A reply record written back to the connection for one request.  The
alerts constructor stands for the check_alerts response dict, whose content
comes from the external alert matcher. -/
inductive Reply where
  | alerts
  | result (r : CmdResult)
  | transcript (t : TranscribeResult)
deriving DecidableEq

/-- Per-connection handler state: the shared registry, the streams this
connection has seen start requests for (client_streams, line 982), and the
server-wide chunk counter. -/
structure HandlerState where
  server : StreamingTranscriptionServer
  client_streams : List String
  chunk_counter : ℕ
deriving DecidableEq

/-- Python truthiness of an optional string: present and non-empty. -/
def truthyOpt : Option String → Bool
  | some s => s != ""
  | none => false

/-- The identifier generated by the f-string default of line 1007 when a
start_stream request carries no stream_id. -/
def autoId (now : ℚ) : String :=
  "stream_" ++ toString now.num ++ "_" ++ toString now.den

/-- Stream-type detection from a legacy audio path (lines 1092-1097). -/
def containsSub (needle hay : List Char) : Bool :=
  hay.tails.any (fun t => needle.isPrefixOf t)

def detectStreamType (path : List Char) : StreamType :=
  let lower := path.map Char.toLower
  if containsSub "_system".data lower || containsSub "system_audio".data lower then
    .system
  else
    .microphone

/-- The transcriber collaborator standing for self.transcribe_chunk on the
legacy path: audio path, detected stream type and the chunk counter value
give the reply dict. -/
abbrev LegacyTranscriber := String → StreamType → ℕ → TranscribeResult

/-- One iteration of the handle_client receive loop (lines 985-1110):
dispatch one received record, returning the new handler state and the list
of reply records sent for that request.  Live-text pushes made from inside
transcribe_chunk are unsolicited update records, not replies, and live
behind the transcriber collaborator. -/
def handleRecord (f32 : ℕ → ℚ) (transcriber : LegacyTranscriber) (now : ℚ)
    (st : HandlerState) (record : ClientRecord) : HandlerState × List Reply :=
  match record with
  | .json (.check_alerts _transcript _keywords) =>
      (st, [Reply.alerts])
  | .json (.start_stream sid stream_type) =>
      let stream_id := sid.getD (autoId now)
      let r := st.server.start_stream stream_id stream_type now
      ({ st with server := r.1
                 client_streams := insertStr st.client_streams stream_id },
       [Reply.result r.2])
  | .json (.stop_stream sid) =>
      match sid with
      | some s =>
          if s != "" then
            let r := st.server.stop_stream s
            ({ st with server := r.1
                       client_streams := st.client_streams.filter (fun x => x != s) },
             [Reply.result r.2.1])
          else (st, [])
      | none => (st, [])
  | .json (.stream_chunk sid audio_data) =>
      match sid, audio_data with
      | some s, some dec =>
          if s != "" then
            match dec with
            | .failed msg =>
                (st, [Reply.result { success := false, error := some msg }])
            | .ok bytes =>
                match st.server.add_audio_chunk f32 s bytes with
                | .error e =>
                    (st, [Reply.result { success := false, error := some e }])
                | .ok r =>
                    ({ st with server := r.1 }, [Reply.result r.2])
          else (st, [])
      | _, _ => (st, [])
  | .json (.dual_stream_chunk audio_path stream_type) =>
      if audio_path ≠ "" then
        let st' := { st with chunk_counter := st.chunk_counter + 1 }
        (st', [Reply.transcript (transcriber audio_path stream_type st'.chunk_counter)])
      else (st, [])
  | .json (.unknown _tag) =>
      (st, [])
  | .raw data =>
      let audio_path := stripBoth data.data
      if audio_path ≠ [] then
        let stream_type := detectStreamType audio_path
        let st' := { st with chunk_counter := st.chunk_counter + 1 }
        (st',
         [Reply.transcript
            (transcriber (String.mk audio_path) stream_type st'.chunk_counter)])
      else (st, [])

/-- The finally-block cleanup of lines 1114-1121: stop every stream the
connection tracked. -/
def cleanupStreams (st : HandlerState) : StreamingTranscriptionServer :=
  st.client_streams.foldl (fun srv stream_id => (srv.stop_stream stream_id).1)
    st.server

/-! ### Concrete instances used by the closed theorems below -/

/-- A concrete float32 reinterpretation for closed statements. -/
def f32c : ℕ → ℚ := fun w => (w : ℚ)

/-- A concrete legacy transcriber for closed statements. -/
def trC : LegacyTranscriber := fun _ st cid => emptyTranscript st 0 cid

def wSeg : TranscriptSegment :=
  { text := "Hello.".data, start_time := 0, end_time := 2 }

def wUpd : TranscriptUpdate :=
  { text := "Hello.".data
    ts_start := 0
    ts_end := 2
    source := StreamType.microphone
    stream_type := StreamType.microphone }

def wAcc7 : TranscriptAccumulator :=
  { current_sentence := "Hi".data
    sentence_start_time := 2
    last_update_time := 0
    last_segment_hash := none
    segments_buffer := [] }

def wUpd7 : TranscriptUpdate :=
  { text := "Hi".data
    ts_start := 2
    ts_end := 3
    source := StreamType.system
    stream_type := StreamType.system }

/-- A buffer at one sample per second (chunk_samples 30, min_samples 2,
overlap_samples 1) holding 35 buffered samples, hence chunk-ready. -/
def wBuf4 : AudioStreamBuffer :=
  { stream_type := StreamType.microphone
    sample_rate := 1
    audio_buffer := List.replicate 35 (0 : ℚ)
    total_samples := 35
    last_chunk_time := 0
    accumulator := TranscriptAccumulator.init 0 }

def wChunk4 : List ℚ := List.replicate 30 (0 : ℚ)

/-- A ready buffer holding thirty seconds of all-zero samples at one
sample per second. -/
def wBuf1 : AudioStreamBuffer :=
  { stream_type := StreamType.microphone
    sample_rate := 1
    audio_buffer := List.replicate 30 (0 : ℚ)
    total_samples := 30
    last_chunk_time := 0
    accumulator := TranscriptAccumulator.init 0 }

/-- The buffer left behind by extracting the full chunk from wBuf1 at
time 40: one overlap sample reinserted at the head. -/
def wBuf1' : AudioStreamBuffer :=
  { stream_type := StreamType.microphone
    sample_rate := 1
    audio_buffer := [(0 : ℚ)]
    total_samples := 30
    last_chunk_time := 40
    accumulator := TranscriptAccumulator.init 0 }

/-- An engine that recognizes one full sentence in any chunk. -/
def wEngine : AsrEngine :=
  fun _ _ => [{ text := "Hello there.".data, start := 0, stop := 2 }]

/-- The statistics the audio analyzer reports for an all-zero chunk of
thirty seconds: zero amplitude, zero RMS, every sample under the silence
threshold. -/
def silentStats : AudioAnalysis :=
  { has_audio := true
    duration := 30
    sample_rate := 1
    channels := 1
    max_amplitude := 0
    rms_level := 0
    silence_percentage := 100
    audio_format := "pcm_s16le".data
    error := none }

def wInfo : WhisperInfo :=
  { language := "en".data, language_probability := 1, duration := 30 }

/-- The reply dict sent when np.frombuffer raises on a payload whose byte
length is not a multiple of four. -/
def errBadSize : CmdResult :=
  { success := false
    error := some "buffer size must be a multiple of element size" }

/-- A registered stream buffer still holding three residual samples. -/
def wBufC2 : AudioStreamBuffer :=
  { stream_type := StreamType.microphone
    sample_rate := 16000
    audio_buffer := [1, 2, 3]
    total_samples := 3
    last_chunk_time := 0
    accumulator := TranscriptAccumulator.init 0 }

def wServerC2 : StreamingTranscriptionServer :=
  { audio_buffers := [("s1", wBufC2)], active_streams := ["s1"] }

/-- A registry holding the single active stream s1. -/
def wServer8 : StreamingTranscriptionServer :=
  { audio_buffers := [("s1", AudioStreamBuffer.init StreamType.microphone 0)]
    active_streams := ["s1"] }

/-- A fresh connection sharing the registry that already holds s1. -/
def wHandler9 : HandlerState :=
  { server := wServer8, client_streams := [], chunk_counter := 0 }

/-! ### Lemmas on the string helpers -/

lemma any_reverse_eq (p : Char → Bool) (l : List Char) :
    l.reverse.any p = l.any p := by
  induction l with
  | nil => rfl
  | cons h t ih => simp [List.reverse_cons, List.any_append, ih, Bool.or_comm]

lemma any_dropWhile_nonWs (l : List Char) :
    (l.dropWhile Char.isWhitespace).any (fun c => !c.isWhitespace) =
      l.any (fun c => !c.isWhitespace) := by
  induction l with
  | nil => rfl
  | cons h t ih =>
    by_cases hw : h.isWhitespace
    · simp [List.dropWhile_cons, hw, ih]
    · simp [List.dropWhile_cons, hw]

/-- Stripping whitespace from the ends never changes whether a
non-whitespace character is present. -/
lemma hasNonWs_stripBoth (s : List Char) :
    hasNonWs (stripBoth s) = hasNonWs s := by
  unfold hasNonWs stripBoth
  rw [any_reverse_eq, any_dropWhile_nonWs, any_reverse_eq, any_dropWhile_nonWs]

/-- A string of pure whitespace strips to the empty string. -/
lemma stripBoth_eq_nil_of_not_hasNonWs (s : List Char)
    (h : hasNonWs s = false) : stripBoth s = [] := by
  unfold hasNonWs at h
  have hall : ∀ c ∈ s, c.isWhitespace := by
    intro c hc
    by_contra hcw
    have hx : s.any (fun c => !c.isWhitespace) = true :=
      List.any_eq_true.mpr ⟨c, hc, by simpa using hcw⟩
    rw [h] at hx
    exact Bool.false_ne_true hx
  unfold stripBoth
  rw [List.dropWhile_eq_nil_iff.mpr hall]
  rfl

/-- A string holding a non-whitespace character strips to a non-empty
string. -/
lemma stripBoth_ne_nil_of_hasNonWs (s : List Char)
    (h : hasNonWs s = true) : stripBoth s ≠ [] := by
  intro hnil
  have heq := hasNonWs_stripBoth s
  rw [hnil, h] at heq
  simp [hasNonWs] at heq

/-- A non-empty strip result certifies a non-whitespace character in the
original string. -/
lemma hasNonWs_of_stripBoth_ne_nil (s : List Char)
    (h : stripBoth s ≠ []) : hasNonWs s = true := by
  cases hb : hasNonWs s with
  | true => rfl
  | false => exact absurd (stripBoth_eq_nil_of_not_hasNonWs s hb) h

/-! ### Lemmas on the accumulator -/

/-- A segment failing the cleanup checks of line 61 is dropped with only
the timing bookkeeping of line 56. -/
lemma add_segment_reject_short (a : TranscriptAccumulator)
    (seg : TranscriptSegment) (st : StreamType) (now : ℚ)
    (h : cleanSegmentText seg.text = [] ∨ seg.end_time - seg.start_time < 1) :
    a.add_segment seg st now = ({ a with last_update_time := now }, none) := by
  simp [TranscriptAccumulator.add_segment, h]

/-- A segment whose fingerprint matches the stored one is dropped with only
the timing bookkeeping. -/
lemma add_segment_reject_dup (a : TranscriptAccumulator)
    (seg : TranscriptSegment) (st : StreamType) (now : ℚ)
    (h1 : ¬ (cleanSegmentText seg.text = [] ∨ seg.end_time - seg.start_time < 1))
    (h2 : a.last_segment_hash =
      some (cleanSegmentText seg.text, seg.start_time, seg.end_time)) :
    a.add_segment seg st now = ({ a with last_update_time := now }, none) := by
  simp [TranscriptAccumulator.add_segment, h1, h2]

/-- After any call that passes the cleanup checks, the stored fingerprint
is that of the submitted segment. -/
lemma add_segment_hash (a : TranscriptAccumulator)
    (seg : TranscriptSegment) (st : StreamType) (now : ℚ)
    (h1 : ¬ (cleanSegmentText seg.text = [] ∨ seg.end_time - seg.start_time < 1)) :
    ((a.add_segment seg st now).1).last_segment_hash =
      some (cleanSegmentText seg.text, seg.start_time, seg.end_time) := by
  by_cases h2 : a.last_segment_hash =
      some (cleanSegmentText seg.text, seg.start_time, seg.end_time)
  · simp [TranscriptAccumulator.add_segment, h1, h2]
  · simp only [TranscriptAccumulator.add_segment]
    simp only [h1, if_false, ite_false, if_neg]
    split_ifs <;> simp_all

/-- The current sentence after add_segment is unchanged, cleared, or ends
in the non-empty cleaned segment text. -/
lemma add_segment_cs (a : TranscriptAccumulator)
    (seg : TranscriptSegment) (st : StreamType) (now : ℚ) :
    ((a.add_segment seg st now).1).current_sentence = a.current_sentence ∨
    ((a.add_segment seg st now).1).current_sentence = [] ∨
    (∃ pre, ((a.add_segment seg st now).1).current_sentence =
        pre ++ cleanSegmentText seg.text ∧ cleanSegmentText seg.text ≠ []) := by
  by_cases h1 : cleanSegmentText seg.text = [] ∨ seg.end_time - seg.start_time < 1
  · rw [add_segment_reject_short a seg st now h1]
    exact Or.inl rfl
  · have hne : cleanSegmentText seg.text ≠ [] := (not_or.mp h1).1
    by_cases h2 : a.last_segment_hash =
        some (cleanSegmentText seg.text, seg.start_time, seg.end_time)
    · rw [add_segment_reject_dup a seg st now h1 h2]
      exact Or.inl rfl
    · simp only [TranscriptAccumulator.add_segment]
      simp only [h1, h2, if_false, ite_false, if_neg]
      split_ifs <;>
        first
          | exact Or.inr (Or.inl rfl)
          | exact Or.inr (Or.inr ⟨_, rfl, hne⟩)

lemma hasNonWs_stripBoth_of_ne_nil (s : List Char) (h : stripBoth s ≠ []) :
    hasNonWs (stripBoth s) = true := by
  rw [hasNonWs_stripBoth]
  exact hasNonWs_of_stripBoth_ne_nil s h

/-- The statement of hasNonWs_stripBoth with the definition unfolded, in
the shape simp meets after unfolding hasNonWs. -/
lemma any_nonWs_stripBoth (s : List Char) :
    ((stripBoth s).any fun c => !c.isWhitespace) =
      (s.any fun c => !c.isWhitespace) :=
  hasNonWs_stripBoth s

lemma accInv_add (a : TranscriptAccumulator) (seg : TranscriptSegment)
    (st : StreamType) (now : ℚ) (h : AccInv a) :
    AccInv ((a.add_segment seg st now).1) := by
  rcases add_segment_cs a seg st now with hc | hc | ⟨pre, hc, hne⟩
  · unfold AccInv at *
    rw [hc]
    exact h
  · exact Or.inl hc
  · right
    rw [hc]
    have hcl : hasNonWs (cleanSegmentText seg.text) = true := by
      unfold cleanSegmentText at hne ⊢
      exact hasNonWs_stripBoth_of_ne_nil _ hne
    unfold hasNonWs at hcl ⊢
    simp [List.any_append, hcl]

lemma accInv_timeout (a : TranscriptAccumulator) (st : StreamType) (now : ℚ)
    (h : AccInv a) : AccInv ((a.check_timeout st now).1) := by
  unfold TranscriptAccumulator.check_timeout
  split_ifs with hc
  · exact Or.inl rfl
  · exact h

lemma accInv_reachable (a : TranscriptAccumulator) (h : ReachableAcc a) :
    AccInv a := by
  induction h with
  | init now => exact Or.inl rfl
  | add a seg st now _ ih => exact accInv_add a seg st now ih
  | timeout a st now _ ih => exact accInv_timeout a st now ih

/-- The update produced by add_segment is nothing, or carries the strip of
a string ending in the non-empty cleaned segment text. -/
lemma add_segment_emit_shape (a : TranscriptAccumulator)
    (seg : TranscriptSegment) (st : StreamType) (now : ℚ) :
    (a.add_segment seg st now).2 = none ∨
    (∃ pre ts te,
      (a.add_segment seg st now).2 =
        some { text := stripBoth (pre ++ cleanSegmentText seg.text)
               ts_start := ts
               ts_end := te
               source := st
               stream_type := st } ∧
      cleanSegmentText seg.text ≠ []) := by
  by_cases h1 : cleanSegmentText seg.text = [] ∨ seg.end_time - seg.start_time < 1
  · rw [add_segment_reject_short a seg st now h1]
    exact Or.inl rfl
  · have hne : cleanSegmentText seg.text ≠ [] := (not_or.mp h1).1
    by_cases h2 : a.last_segment_hash =
        some (cleanSegmentText seg.text, seg.start_time, seg.end_time)
    · rw [add_segment_reject_dup a seg st now h1 h2]
      exact Or.inl rfl
    · simp only [TranscriptAccumulator.add_segment]
      simp only [h1, h2, if_false, ite_false, if_neg]
      split_ifs <;>
        first
          | exact Or.inl rfl
          | exact Or.inr ⟨_, _, _, rfl, hne⟩

/-- Every update emitted by add_segment carries a visible character. -/
lemma add_segment_emit_text (a : TranscriptAccumulator)
    (seg : TranscriptSegment) (st : StreamType) (now : ℚ)
    (u : TranscriptUpdate) (h : (a.add_segment seg st now).2 = some u) :
    hasNonWs u.text = true := by
  rcases add_segment_emit_shape a seg st now with hn | ⟨pre, ts, te, he, hne⟩
  · rw [hn] at h
    exact absurd h (by simp)
  · rw [he] at h
    have hu := (Option.some.injEq _ _).mp h
    subst hu
    have hcl : hasNonWs (cleanSegmentText seg.text) = true := by
      unfold cleanSegmentText at hne ⊢
      exact hasNonWs_stripBoth_of_ne_nil _ hne
    unfold hasNonWs at hcl
    simp [hasNonWs, any_nonWs_stripBoth, List.any_append, hcl]

/-- Acceptance with emission from the Empty state: a fresh segment whose
cleaned text ends in terminal punctuation emits it as a sentence. -/
lemma add_segment_accept_emit (a : TranscriptAccumulator)
    (seg : TranscriptSegment) (st : StreamType) (now : ℚ)
    (h1 : ¬ (cleanSegmentText seg.text = [] ∨ seg.end_time - seg.start_time < 1))
    (h2 : ¬ a.last_segment_hash =
      some (cleanSegmentText seg.text, seg.start_time, seg.end_time))
    (hcs : a.current_sentence = [])
    (hp : lastCharIs (cleanSegmentText seg.text) '.' = true ∨
      lastCharIs (cleanSegmentText seg.text) '?' = true ∨
      lastCharIs (cleanSegmentText seg.text) '!' = true) :
    (a.add_segment seg st now).2 =
      some { text := stripBoth (cleanSegmentText seg.text)
             ts_start := seg.start_time
             ts_end := seg.end_time
             source := st
             stream_type := st } := by
  simp [TranscriptAccumulator.add_segment, h1, h2, hcs, hp]

/-! ### Claim theorems: the accumulator (C5, C6, C7) -/

/-- C5: for every reachable TranscriptAccumulator state and every input
segment, no update emitted by add_segment or check_timeout has empty text;
the emitted text field is non-empty after trimming whitespace. -/
theorem C5_no_empty_update (a : TranscriptAccumulator) (h : ReachableAcc a)
    (seg : TranscriptSegment) (st : StreamType) (now : ℚ)
    (u : TranscriptUpdate)
    (hu : (a.add_segment seg st now).2 = some u ∨
      (a.check_timeout st now).2 = some u) :
    stripBoth u.text ≠ [] := by
  rcases hu with hadd | hto
  · exact stripBoth_ne_nil_of_hasNonWs u.text
      (add_segment_emit_text a seg st now u hadd)
  · unfold TranscriptAccumulator.check_timeout at hto
    split_ifs at hto with hc
    · have hu2 := (Option.some.injEq _ _).mp hto
      subst hu2
      rcases accInv_reachable a h with hcs | hcs
      · exact absurd hcs hc.1
      · have h1 : hasNonWs (stripBoth a.current_sentence) = true := by
          rw [hasNonWs_stripBoth]
          exact hcs
        exact stripBoth_ne_nil_of_hasNonWs _ h1

/-- C5 witness: from the fresh accumulator, the segment Hello. emits an
update whose trimmed text is non-empty. -/
theorem C5_witness :
    ((TranscriptAccumulator.init 0).add_segment wSeg
        StreamType.microphone 10).2 = some wUpd ∧
    stripBoth wUpd.text ≠ [] := by
  have h1 : ¬ (cleanSegmentText wSeg.text = [] ∨
      wSeg.end_time - wSeg.start_time < 1) := by
    refine not_or.mpr ⟨by decide, ?_⟩
    norm_num [wSeg]
  have heval : ((TranscriptAccumulator.init 0).add_segment wSeg
      StreamType.microphone 10).2 = some wUpd := by
    rw [add_segment_accept_emit (TranscriptAccumulator.init 0) wSeg
      StreamType.microphone 10 h1 (by decide) (by decide)
      (Or.inl (by decide))]
    decide
  exact ⟨heval,
    C5_no_empty_update (TranscriptAccumulator.init 0) (ReachableAcc.init 0)
      wSeg StreamType.microphone 10 wUpd (Or.inl heval)⟩

/-- C6: submitting the same segment twice in immediate succession yields at
most one emission; the second call returns no update and changes nothing
but the update-time bookkeeping, because the fingerprint matches the
previous accepted segment. -/
theorem C6_duplicate_suppressed (a : TranscriptAccumulator)
    (seg : TranscriptSegment) (st : StreamType) (t1 t2 : ℚ) :
    (((a.add_segment seg st t1).1).add_segment seg st t2).2 = none ∧
    (((a.add_segment seg st t1).1).add_segment seg st t2).1 =
      { (a.add_segment seg st t1).1 with last_update_time := t2 } := by
  by_cases h1 : cleanSegmentText seg.text = [] ∨ seg.end_time - seg.start_time < 1
  · rw [add_segment_reject_short ((a.add_segment seg st t1).1) seg st t2 h1]
    exact ⟨rfl, rfl⟩
  · rw [add_segment_reject_dup ((a.add_segment seg st t1).1) seg st t2 h1
      (add_segment_hash a seg st t1 h1)]
    exact ⟨rfl, rfl⟩

/-- C7: check_timeout emits only from a non-empty pending sentence strictly
past the one-second timeout (so it never fires earlier), and when it fires
it emits the pending sentence with estimated end time
sentence_start_time + timeout and clears the state to Empty. -/
theorem C7_timeout_fire (a : TranscriptAccumulator) (st : StreamType)
    (now : ℚ) (u : TranscriptUpdate)
    (h : (a.check_timeout st now).2 = some u) :
    a.current_sentence ≠ [] ∧
    now - a.last_update_time > 1 ∧
    ¬ now - a.last_update_time < 1 ∧
    u.text = stripBoth a.current_sentence ∧
    u.ts_start = a.sentence_start_time ∧
    u.ts_end = a.sentence_start_time + 1 ∧
    (a.check_timeout st now).1.current_sentence = [] := by
  unfold TranscriptAccumulator.check_timeout at h ⊢
  split_ifs at h with hc
  have hu := (Option.some.injEq _ _).mp h
  subst hu
  refine ⟨hc.1, hc.2, by linarith [hc.2], rfl, rfl, rfl, ?_⟩
  simp [hc]

/-- C7 witness: a pending sentence Hi started at 2 and last updated at 0
fires at 5 with the estimated end time 3 and a cleared state. -/
theorem C7_witness :
    (wAcc7.check_timeout StreamType.system 5).2 = some wUpd7 ∧
    (wAcc7.current_sentence ≠ [] ∧
     (5 : ℚ) - wAcc7.last_update_time > 1 ∧
     ¬ (5 : ℚ) - wAcc7.last_update_time < 1 ∧
     wUpd7.text = stripBoth wAcc7.current_sentence ∧
     wUpd7.ts_start = wAcc7.sentence_start_time ∧
     wUpd7.ts_end = wAcc7.sentence_start_time + 1 ∧
     (wAcc7.check_timeout StreamType.system 5).1.current_sentence = []) := by
  have hc : wAcc7.current_sentence ≠ [] ∧ (5 : ℚ) - wAcc7.last_update_time > 1 := by
    refine ⟨by decide, ?_⟩
    norm_num [wAcc7]
  have heval : (wAcc7.check_timeout StreamType.system 5).2 = some wUpd7 := by
    unfold TranscriptAccumulator.check_timeout
    rw [if_pos hc]
    norm_num [wAcc7, wUpd7]
    decide
  exact ⟨heval, C7_timeout_fire wAcc7 StreamType.system 5 wUpd7 heval⟩

/-! ### Claim theorems: the audio buffer (C4) -/

/-- C4: whenever get_chunk_if_ready returns a chunk its length is strictly
positive and at most chunk_samples, and exactly
min overlap_samples extracted_length trailing samples of the chunk are
reinserted at the head of the buffer; when the readiness condition fails,
nothing is returned and the buffer is unchanged. -/
theorem C4_chunk_extraction (b : AudioStreamBuffer) (now : ℚ)
    (c : List ℚ) (hrate : 0 < b.sample_rate) :
    ((b.get_chunk_if_ready now).1 = some c →
      0 < c.length ∧ c.length ≤ b.chunk_samples ∧
      ((b.get_chunk_if_ready now).2).audio_buffer =
        c.drop (c.length - min b.overlap_samples c.length) ++
          b.audio_buffer.drop c.length) ∧
    (¬ b.chunkReady now → b.get_chunk_if_ready now = (none, b)) := by
  have hcs : 0 < b.chunk_samples := by
    unfold AudioStreamBuffer.chunk_samples
    exact Nat.mul_pos hrate (by norm_num [CHUNK_DURATION_MS])
  constructor
  · intro hsome
    simp only [AudioStreamBuffer.get_chunk_if_ready] at hsome ⊢
    split_ifs at hsome ⊢ with hcond
    · have hc := (Option.some.injEq _ _).mp hsome
      subst hc
      have hlen : (b.audio_buffer.take
          (min b.audio_buffer.length b.chunk_samples)).length =
          min b.audio_buffer.length b.chunk_samples := by
        rw [List.length_take]
        omega
      have hpos : 0 < b.audio_buffer.length := hcond.2
      refine ⟨?_, ?_, ?_⟩
      · rw [hlen]
        omega
      · rw [hlen]
        omega
      · rw [hlen]
  · intro hnr
    unfold AudioStreamBuffer.chunkReady at hnr
    simp only [AudioStreamBuffer.get_chunk_if_ready]
    rw [if_neg]
    intro hcond
    exact hnr hcond.1

/-- C4 witness: a ready buffer of 35 samples at configuration
chunk_samples 30, overlap_samples 1 satisfies the extraction contract. -/
theorem C4_witness :
    0 < wBuf4.sample_rate ∧
    (((wBuf4.get_chunk_if_ready 0).1 = some wChunk4 →
        0 < wChunk4.length ∧ wChunk4.length ≤ wBuf4.chunk_samples ∧
        ((wBuf4.get_chunk_if_ready 0).2).audio_buffer =
          wChunk4.drop (wChunk4.length -
            min wBuf4.overlap_samples wChunk4.length) ++
            wBuf4.audio_buffer.drop wChunk4.length) ∧
      (¬ wBuf4.chunkReady 0 → wBuf4.get_chunk_if_ready 0 = (none, wBuf4))) :=
  ⟨by decide, C4_chunk_extraction wBuf4 0 wChunk4 (by decide)⟩

/-! ### Claim theorems: the quality gate and the streaming path (C1, C2) -/

/-- C1 counterexample to the claim as stated: the audio statistics of the
extracted thirty-second all-zero chunk are rejected by the quality gate,
yet the streaming processing step invokes the ASR engine exactly once on
that chunk, and the engine output (a non-empty segment list) is what flows
onward, not an empty transcript produced without an engine call. -/
theorem C1_counterexample :
    qualityGateRejects silentStats ∧
    (wBuf1.get_chunk_if_ready 40).1 = some (List.replicate 30 (0 : ℚ)) ∧
    (process_stream_step wEngine wBuf1 40).2.2 = 1 ∧
    (transcribe_audio_chunk wEngine (List.replicate 30 (0 : ℚ))
      StreamType.microphone).1 ≠ [] := by
  refine ⟨?_, by decide, by decide, by decide⟩
  unfold qualityGateRejects
  right
  left
  norm_num [silentStats]

/-- C1 as amended: every chunk returned by get_chunk_if_ready is passed
directly to the ASR engine by the streaming processing step, with exactly
one engine invocation and no quality gate; the quality gate runs only in
the legacy file-based transcribe_chunk path, where a gate-rejected
analysis yields an empty transcript with zero engine invocations. -/
theorem C1_streaming_bypasses_gate (engine : AsrEngine)
    (b : AudioStreamBuffer) (now : ℚ) (chunk : List ℚ)
    (b' : AudioStreamBuffer)
    (hc : b.get_chunk_if_ready now = (some chunk, b'))
    (an : AudioAnalysis) (segs : List RawSegment) (info : WhisperInfo)
    (st : StreamType) (cid : ℕ)
    (herr : an.error = none)
    (hrej : qualityGateRejects an) :
    (process_stream_step engine b now).2.2 = 1 ∧
    (transcribe_chunk_core an segs info st cid).2 = 0 ∧
    (transcribe_chunk_core an segs info st cid).1.text = [] := by
  unfold qualityGateRejects at hrej
  refine ⟨?_, ?_, ?_⟩
  · unfold process_stream_step
    rw [hc]
    rfl
  all_goals
    unfold transcribe_chunk_core
    rw [herr]
    split_ifs with h0 h1 h2
    · rfl
    · rfl
    · rfl
    · rcases hrej with hd | hrest
      · exact absurd hd h1
      · exact absurd hrest h2

/-- C1 witness for the amended claim, at the all-zero ready chunk and the
silent-audio statistics. -/
theorem C1_witness :
    wBuf1.get_chunk_if_ready 40 = (some (List.replicate 30 (0 : ℚ)), wBuf1') ∧
    silentStats.error = none ∧
    qualityGateRejects silentStats ∧
    ((process_stream_step wEngine wBuf1 40).2.2 = 1 ∧
     (transcribe_chunk_core silentStats [] wInfo StreamType.microphone 0).2 = 0 ∧
     (transcribe_chunk_core silentStats [] wInfo
       StreamType.microphone 0).1.text = []) := by
  have hrej : qualityGateRejects silentStats := by
    unfold qualityGateRejects
    right
    left
    norm_num [silentStats]
  exact ⟨by decide, rfl, hrej,
    C1_streaming_bypasses_gate wEngine wBuf1 40 (List.replicate 30 (0 : ℚ))
      wBuf1' (by decide) silentStats [] wInfo StreamType.microphone 0 rfl hrej⟩

/-- C2: the code bug, evaluated.  Stream s1 is registered with three
residual buffered samples; stop_stream answers success, removes the entry,
and performs zero transcription calls, so the residual audio is discarded
with nothing but a log line. -/
theorem C2_stop_discards_audio :
    lookupBuffer wServerC2 "s1" = some wBufC2 ∧
    wBufC2.audio_buffer ≠ [] ∧
    (wServerC2.stop_stream "s1").2.2 = 0 ∧
    (wServerC2.stop_stream "s1").2.1 = { success := true } ∧
    lookupBuffer (wServerC2.stop_stream "s1").1 "s1" = none := by
  decide

/-- Every stop_stream call performs zero ASR or transcription invocations,
whatever the registry state: the drain the specification requires does not
exist in the implementation. -/
theorem stop_stream_never_transcribes (s : StreamingTranscriptionServer)
    (stream_id : String) : (s.stop_stream stream_id).2.2 = 0 := by
  unfold StreamingTranscriptionServer.stop_stream
  cases lookupBuffer s stream_id <;> rfl

/-! ### Lemmas on the registry and the handler -/

lemma start_stream_exists (s : StreamingTranscriptionServer)
    (stream_id : String) (ty : StreamType) (now : ℚ)
    (h : lookupBuffer s stream_id ≠ none) :
    s.start_stream stream_id ty now =
      (s, { success := false, error := some "Stream already exists" }) := by
  unfold StreamingTranscriptionServer.start_stream
  rw [if_pos h]

lemma mem_insertStr_self (l : List String) (x : String) :
    x ∈ insertStr l x := by
  unfold insertStr
  split_ifs with h
  · exact h
  · simp

/-- Stopping a stream removes its registry entry. -/
lemma lookupBuffer_stop_self (s : StreamingTranscriptionServer)
    (x : String) : lookupBuffer (s.stop_stream x).1 x = none := by
  unfold StreamingTranscriptionServer.stop_stream
  cases h : lookupBuffer s x with
  | none => exact h
  | some b =>
    unfold lookupBuffer
    rw [Option.map_eq_none']
    rw [List.find?_eq_none]
    intro p hp
    have hne := (List.mem_filter.mp hp).2
    simp only [bne_iff_ne, ne_eq] at hne
    simp [hne]

/-- Stopping any stream never makes an absent entry appear. -/
lemma lookupBuffer_stop_preserves_none (s : StreamingTranscriptionServer)
    (x y : String) (h : lookupBuffer s x = none) :
    lookupBuffer (s.stop_stream y).1 x = none := by
  unfold StreamingTranscriptionServer.stop_stream
  cases hy : lookupBuffer s y with
  | none => exact h
  | some b =>
    unfold lookupBuffer at h ⊢
    rw [Option.map_eq_none'] at h ⊢
    rw [List.find?_eq_none] at h ⊢
    intro p hp
    exact h p (List.mem_filter.mp hp).1

lemma foldl_stop_preserves_none (l : List String)
    (srv : StreamingTranscriptionServer) (x : String)
    (h : lookupBuffer srv x = none) :
    lookupBuffer (l.foldl (fun s i => (s.stop_stream i).1) srv) x = none := by
  induction l generalizing srv with
  | nil => exact h
  | cons y ys ih =>
    exact ih _ (lookupBuffer_stop_preserves_none srv x y h)

/-- Folding stop_stream over a list of identifiers removes every listed
entry. -/
lemma foldl_stop_removes (l : List String)
    (srv : StreamingTranscriptionServer) (x : String) (hx : x ∈ l) :
    lookupBuffer (l.foldl (fun s i => (s.stop_stream i).1) srv) x = none := by
  induction l generalizing srv with
  | nil => cases hx
  | cons y ys ih =>
    rcases List.mem_cons.mp hx with rfl | hmem
    · exact foldl_stop_preserves_none ys _ x (lookupBuffer_stop_self srv x)
    · exact ih ((srv.stop_stream y).1) hmem

/-! ### Claim theorems: the connection handler (C3, C8, C9, C10) -/

/-- C3 counterexample to the claim as stated: a well-formed JSON record of
an unrecognized command kind receives no reply at all, rather than one
reply of the form success false with an error. -/
theorem C3_counterexample :
    handleRecord f32c trC 0 wHandler9 (.json (.unknown "bogus")) =
      (wHandler9, []) := rfl

/-- C3 as amended: each recognized command with its required truthy fields
is answered with exactly one reply record; an unrecognized command kind, a
stop_stream or stream_chunk record missing its required fields, and an
empty legacy payload are silently skipped with no reply; raw non-JSON data
is treated as a legacy audio path and answered with one transcribe-result
record. -/
theorem C3_reply_counts (f32 : ℕ → ℚ) (tr : LegacyTranscriber) (now : ℚ)
    (st : HandlerState) :
    (∀ t k,
      ((handleRecord f32 tr now st (.json (.check_alerts t k))).2).length = 1) ∧
    (∀ sid ty,
      ((handleRecord f32 tr now st (.json (.start_stream sid ty))).2).length = 1) ∧
    (∀ sid,
      ((handleRecord f32 tr now st (.json (.stop_stream sid))).2).length =
        if truthyOpt sid then 1 else 0) ∧
    (∀ sid ad,
      ((handleRecord f32 tr now st (.json (.stream_chunk sid ad))).2).length =
        if truthyOpt sid && ad.isSome then 1 else 0) ∧
    (∀ path ty,
      ((handleRecord f32 tr now st (.json (.dual_stream_chunk path ty))).2).length =
        if path ≠ "" then 1 else 0) ∧
    (∀ tag,
      ((handleRecord f32 tr now st (.json (.unknown tag))).2).length = 0) ∧
    (∀ data,
      ((handleRecord f32 tr now st (.raw data)).2).length =
        if stripBoth data.data ≠ [] then 1 else 0) := by
  refine ⟨fun t k => rfl, fun sid ty => rfl, fun sid => ?_, fun sid ad => ?_,
    fun path ty => ?_, fun tag => rfl, fun data => ?_⟩
  · cases sid with
    | none => simp [handleRecord, truthyOpt]
    | some s =>
      by_cases hs : (s != "") = true
      · simp [handleRecord, truthyOpt, hs]
      · simp only [Bool.not_eq_true] at hs
        simp [handleRecord, truthyOpt, hs]
  · cases sid with
    | none => cases ad <;> simp [handleRecord, truthyOpt]
    | some s =>
      cases ad with
      | none => simp [handleRecord, truthyOpt]
      | some dec =>
        by_cases hs : (s != "") = true
        · cases dec with
          | failed msg => simp [handleRecord, truthyOpt, hs]
          | ok bytes =>
            cases h : StreamingTranscriptionServer.add_audio_chunk f32
                st.server s bytes with
            | error e => simp [handleRecord, truthyOpt, hs, h]
            | ok r => simp [handleRecord, truthyOpt, hs, h]
        · simp only [Bool.not_eq_true] at hs
          simp [handleRecord, truthyOpt, hs]
  · by_cases hp : path = ""
    · simp [handleRecord, hp]
    · simp [handleRecord, hp]
  · by_cases hd : stripBoth data.data = []
    · simp [handleRecord, hd]
    · simp [handleRecord, hd]

/-- C8: a duplicate start_stream answers AlreadyExists, and stop_stream or
add_audio_chunk on an unknown identifier answers NotFound; in each case
success is false and the registry and all buffers are unchanged. -/
theorem C8_registry_errors (s : StreamingTranscriptionServer)
    (idA idB : String) (ty : StreamType) (now : ℚ) (data : List ℕ)
    (f32 : ℕ → ℚ)
    (hA : lookupBuffer s idA ≠ none) (hB : lookupBuffer s idB = none) :
    s.start_stream idA ty now =
      (s, { success := false, error := some "Stream already exists" }) ∧
    s.stop_stream idB =
      (s, { success := false, error := some "Stream not found" }, 0) ∧
    StreamingTranscriptionServer.add_audio_chunk f32 s idB data =
      .ok (s, { success := false, error := some "Stream not found" }) := by
  refine ⟨start_stream_exists s idA ty now hA, ?_, ?_⟩
  · unfold StreamingTranscriptionServer.stop_stream
    rw [hB]
  · unfold StreamingTranscriptionServer.add_audio_chunk
    rw [hB]

/-- C8 witness: the registry holding only s1 rejects a second start of s1
and rejects stop and chunk submission for the unknown s2, unchanged. -/
theorem C8_witness :
    lookupBuffer wServer8 "s1" ≠ none ∧
    lookupBuffer wServer8 "s2" = none ∧
    (wServer8.start_stream "s1" StreamType.microphone 0 =
      (wServer8, { success := false, error := some "Stream already exists" }) ∧
     wServer8.stop_stream "s2" =
      (wServer8, { success := false, error := some "Stream not found" }, 0) ∧
     StreamingTranscriptionServer.add_audio_chunk f32c wServer8 "s2" [1, 2, 3] =
      .ok (wServer8, { success := false, error := some "Stream not found" })) :=
  ⟨by decide, by decide,
   C8_registry_errors wServer8 "s1" "s2" StreamType.microphone 0 [1, 2, 3]
     f32c (by decide) (by decide)⟩

/-- C9: a start_stream request for an identifier that is already active is
answered with AlreadyExists, yet the handler still adds the identifier to
its per-connection tracked set, so the disconnect cleanup stops and
removes the still-active stream another connection owns. -/
theorem C9_failed_start_still_tracked (st : HandlerState) (sid : String)
    (ty : StreamType) (now : ℚ) (f32 : ℕ → ℚ) (tr : LegacyTranscriber)
    (hpresent : lookupBuffer st.server sid ≠ none) :
    (handleRecord f32 tr now st (.json (.start_stream (some sid) ty))).2 =
      [Reply.result { success := false, error := some "Stream already exists" }] ∧
    sid ∈ (handleRecord f32 tr now st
      (.json (.start_stream (some sid) ty))).1.client_streams ∧
    lookupBuffer (cleanupStreams (handleRecord f32 tr now st
      (.json (.start_stream (some sid) ty))).1) sid = none := by
  have hrec : handleRecord f32 tr now st (.json (.start_stream (some sid) ty)) =
      ({ st with server := st.server,
                 client_streams := insertStr st.client_streams sid },
       [Reply.result { success := false, error := some "Stream already exists" }]) := by
    simp [handleRecord, start_stream_exists st.server sid ty now hpresent]
  rw [hrec]
  refine ⟨rfl, mem_insertStr_self _ _, ?_⟩
  unfold cleanupStreams
  exact foldl_stop_removes _ _ _ (mem_insertStr_self st.client_streams sid)

/-- C9 witness: a fresh connection issues start_stream for the already
active s1; the registry call fails, the id is tracked anyway, and the
cleanup removes s1 from the registry. -/
theorem C9_witness :
    lookupBuffer wHandler9.server "s1" ≠ none ∧
    ((handleRecord f32c trC 0 wHandler9
        (.json (.start_stream (some "s1") StreamType.microphone))).2 =
      [Reply.result { success := false, error := some "Stream already exists" }] ∧
     "s1" ∈ (handleRecord f32c trC 0 wHandler9
        (.json (.start_stream (some "s1") StreamType.microphone))).1.client_streams ∧
     lookupBuffer (cleanupStreams (handleRecord f32c trC 0 wHandler9
        (.json (.start_stream (some "s1") StreamType.microphone))).1) "s1" = none) :=
  ⟨by decide,
   C9_failed_start_still_tracked wHandler9 "s1" StreamType.microphone 0
     f32c trC (by decide)⟩

/-- C10: a stream_chunk whose decoded payload length is not a multiple of
four makes the float32 reinterpretation raise before any append; the
handler catches it and answers success false with the error, and the
handler state, the registry, the buffer contents and the total_samples
counter are all unchanged. -/
theorem C10_bad_chunk_atomic (st : HandlerState) (sid : String)
    (bytes : List ℕ) (f32 : ℕ → ℚ) (tr : LegacyTranscriber) (now : ℚ)
    (hsid : sid ≠ "")
    (buf : AudioStreamBuffer) (hbuf : lookupBuffer st.server sid = some buf)
    (hlen : bytes.length % 4 ≠ 0) :
    StreamingTranscriptionServer.add_audio_chunk f32 st.server sid bytes =
      .error "buffer size must be a multiple of element size" ∧
    handleRecord f32 tr now st
        (.json (.stream_chunk (some sid) (some (.ok bytes)))) =
      (st, [Reply.result errBadSize]) := by
  have hadd : StreamingTranscriptionServer.add_audio_chunk f32 st.server sid bytes =
      .error "buffer size must be a multiple of element size" := by
    unfold StreamingTranscriptionServer.add_audio_chunk
    rw [hbuf]
    unfold AudioStreamBuffer.add_audio_data
    simp [hlen]
  have hs : (sid != "") = true := by simpa using hsid
  refine ⟨hadd, ?_⟩
  simp [handleRecord, hs, hadd, errBadSize]

/-- C10 witness: three raw bytes sent to the active stream s1 are rejected
atomically with one failure reply. -/
theorem C10_witness :
    ("s1" : String) ≠ "" ∧
    lookupBuffer wHandler9.server "s1" =
      some (AudioStreamBuffer.init StreamType.microphone 0) ∧
    ([1, 2, 3] : List ℕ).length % 4 ≠ 0 ∧
    (StreamingTranscriptionServer.add_audio_chunk f32c wHandler9.server "s1"
        [1, 2, 3] = .error "buffer size must be a multiple of element size" ∧
     handleRecord f32c trC 0 wHandler9
        (.json (.stream_chunk (some "s1") (some (.ok [1, 2, 3])))) =
      (wHandler9, [Reply.result errBadSize])) :=
  ⟨by decide, by decide, by decide,
   C10_bad_chunk_atomic wHandler9 "s1" [1, 2, 3] f32c trC 0 (by decide)
     (AudioStreamBuffer.init StreamType.microphone 0) (by decide) (by decide)⟩
